import Mathlib

set_option maxHeartbeats 1000000

/-! Verification development for the utilization-monitor daemon of esrum-utils.

The Python sources under src/utilization-monitor are shallowly embedded:
timestamps and cpu/mem fractions become rationals, Python sets become
finsets, fallible code returns Except, and the sampling loop of
cmds/monitor.py becomes an explicit step function over a loop state.
Each definition is annotated with the Python symbol it embeds. -/

namespace UtilizationMonitor

/-- UniqueProcess (processes.py): processes are identified by their PID and
creation time, assumed to uniquely identify a process across PID re-use. -/
structure UniqueProcess where
  pid : Int
  create_time : ℚ
deriving DecidableEq

/-- ProcMeasurement (processes.py): one per-process sample over an interval.
Optional command and creation time model the fields that stay None when
psutil raised while they were being collected. -/
structure ProcMeasurement where
  pid : Int
  username : Option String
  time_start : ℚ
  time_end : ℚ
  cpu_usage : ℚ := 0
  mem_usage : ℚ := 0
  command : Option (List String) := none
  create_time : Option ℚ := none
deriving DecidableEq

/-- ProcMeasurement.unique_id: None when the creation time is unknown,
otherwise the (pid, create_time) identity. -/
def ProcMeasurement.unique_id (m : ProcMeasurement) : Option UniqueProcess :=
  m.create_time.map fun ct => { pid := m.pid, create_time := ct }

/-! Glob matching (Python fnmatch). fnmatch.translate turns a pattern into a
regex: "*" matches any sequence, "?" any single character, and "[...]"
a character class; an unterminated "[" is a literal bracket. The functions
below implement that semantics directly on character lists. -/

/-- Scan of a glob character class for its closing bracket, returning the
class body scanned so far and the rest of the pattern; none when the class
is unterminated. -/
def scanClassTail : List Char → Option (List Char × List Char)
  | [] => none
  | c :: rest =>
    if c = ']' then some ([], rest)
    else (scanClassTail rest).map fun br => (c :: br.1, br.2)

/-- Per fnmatch.translate, a closing bracket directly after the opening
bracket (or after a negating bang) is a literal member of the class, not
its terminator. -/
def scanClassBody (cs : List Char) : Option (List Char × List Char) :=
  match cs with
  | [] => scanClassTail []
  | c :: rest =>
    if c = ']' then (scanClassTail rest).map fun br => (c :: br.1, br.2)
    else scanClassTail (c :: rest)

/-- Span of a glob character class: an optional leading bang negates the
class and is kept as the head of the returned body. -/
def spanClass (cs : List Char) : Option (List Char × List Char) :=
  match cs with
  | [] => scanClassBody []
  | c :: rest =>
    if c = '!' then (scanClassBody rest).map fun br => (c :: br.1, br.2)
    else scanClassBody (c :: rest)

/-- Membership test of one character against a class body, with ranges:
a dash between two characters denotes an inclusive codepoint range, any
other character is a literal member. -/
def classMatch : List Char → Char → Bool
  | [], _ => false
  | a :: '-' :: b :: rest, c => (decide (a ≤ c ∧ c ≤ b)) || classMatch rest c
  | a :: rest, c => (a == c) || classMatch rest c

/-- Membership in a glob character class; a leading bang negates. -/
def inClass (body : List Char) (c : Char) : Bool :=
  match body with
  | '!' :: rest => ! classMatch rest c
  | _ => classMatch body c

/-- Glob matching of a whole subject string against a whole pattern, as
produced by fnmatch.translate (the regex is anchored at both ends). The
fuel argument makes the two-variable recursion structural; every recursive
call shortens the combined length of pattern and subject, so the wrapper
below supplies fuel that is never exhausted. -/
def globMatchF : Nat → List Char → List Char → Bool
  | 0, _, _ => false
  | _ + 1, [], s => s.isEmpty
  | fuel + 1, '*' :: ps, s =>
    globMatchF fuel ps s ||
      (match s with
       | [] => false
       | _ :: t => globMatchF fuel ('*' :: ps) t)
  | fuel + 1, '?' :: ps, s =>
    (match s with
     | [] => false
     | _ :: t => globMatchF fuel ps t)
  | fuel + 1, '[' :: ps, s =>
    (match spanClass ps with
     | some (body, rest) =>
       (match s with
        | [] => false
        | c :: t => inClass body c && globMatchF fuel rest t)
     | none =>
       (match s with
        | [] => false
        | c :: t => (c == '[') && globMatchF fuel ps t))
  | fuel + 1, a :: ps, s =>
    (match s with
     | [] => false
     | c :: t => (a == c) && globMatchF fuel ps t)

/-- Glob matching with sufficient fuel for the whole inputs. -/
def globMatch (p s : List Char) : Bool := globMatchF (p.length + s.length + 1) p s

/-- fnmatch.fnmatch(name, pat) on POSIX: os.path.normcase is the identity
there, so this is case-sensitive glob matching of the whole name. -/
def fnmatch (name pat : String) : Bool := globMatch pat.data name.data

/-- Split of a character list into the chunks separated by slashes. -/
def splitSlash : List Char → List (List Char)
  | [] => [[]]
  | '/' :: rest => [] :: splitSlash rest
  | c :: rest =>
    (match splitSlash rest with
     | [] => [[c]]
     | g :: gs => (c :: g) :: gs)

/-- PurePosixPath(s).name: the final path component; empty and single-dot
components are dropped when pathlib parses a path, and the name of a path
with no remaining components is the empty string. -/
def pathName (s : String) : String :=
  ⟨((splitSlash s.data).filter fun c => ! (c.isEmpty || c == ['.'])).getLastD []⟩

/-- CommandFilters (filters.py): patterns holding a glob metacharacter are
kept as glob rules, plain strings are literal executable basenames. -/
structure CommandFilters where
  executables : Finset String
  patterns : List String
deriving DecidableEq

/-- Loop body of CommandFilters.__init__: a pattern containing an asterisk
or a square bracket is appended to the glob rules, anything else is added
to the literal executable set. -/
def CommandFilters.addPattern (cf : CommandFilters) (pat : String) : CommandFilters :=
  if pat.data.contains '*' || pat.data.contains '[' || pat.data.contains ']' then
    { cf with patterns := cf.patterns ++ [pat] }
  else
    { cf with executables := insert pat cf.executables }

/-- CommandFilters.__init__ (filters.py). -/
def CommandFilters.init (pats : List String) : CommandFilters :=
  pats.foldl CommandFilters.addPattern { executables := ∅, patterns := [] }

/-- CommandFilters.__call__ (filters.py): an empty or unavailable command
matches only a configured "*" glob; otherwise the basename of the first
argument is looked up in the literal set, and failing that each glob rule
is matched against the space-joined command line. -/
def CommandFilters.call (cf : CommandFilters) (command : Option (List String)) : Bool :=
  match command with
  | none => cf.patterns.contains "*"
  | some cmd =>
    if cmd = [] then cf.patterns.contains "*"
    else if pathName (cmd.headD "") ∈ cf.executables then true
    else cf.patterns.any fun pat => fnmatch (" ".intercalate cmd) pat

/-- MergedMeasurement (processes.py): the per-tick merge of the measurements
of one named group for one user. -/
structure MergedMeasurement where
  username : Option String
  time_start : ℚ
  time_end : ℚ
  cpu_usage : ℚ
  mem_usage : ℚ
  processes : Finset UniqueProcess
deriving DecidableEq

/-- Identity bookkeeping for one measurement in the loop of
MergedMeasurement.from_measurements: a measurement whose creation time is
unknown has no unique id and contributes nothing to the identity set. -/
def identityStep (acc : Finset UniqueProcess) (it : ProcMeasurement) :
    Finset UniqueProcess :=
  match it.unique_id with
  | some u => insert u acc
  | none => acc

/-- Identity set collected from a list of measurements, in loop order. -/
def identitySet (items : List ProcMeasurement) : Finset UniqueProcess :=
  items.foldl identityStep ∅

/-- Loop body of MergedMeasurement.from_measurements (processes.py): the
username and the interval endpoints must agree with those taken from the
first measurement, cpu and mem contributions are summed unconditionally,
and the unique id is collected when the creation time is known. -/
def MergedMeasurement.mergeStep (acc : MergedMeasurement) (it : ProcMeasurement) :
    Except String MergedMeasurement :=
  if acc.username ≠ it.username then .error "mismatching usernames"
  else if acc.time_start ≠ it.time_start ∨ acc.time_end ≠ it.time_end then
    .error "mismatching timestamps"
  else
    .ok { acc with
          cpu_usage := acc.cpu_usage + it.cpu_usage,
          mem_usage := acc.mem_usage + it.mem_usage,
          processes := identityStep acc.processes it }

/-- MergedMeasurement.from_measurements (processes.py): seeded from the
first measurement (indexing an empty list is an error) and folded over the
whole list, the first measurement included. -/
def MergedMeasurement.from_measurements :
    List ProcMeasurement → Except String MergedMeasurement
  | [] => .error "list index out of range"
  | first :: rest =>
    (first :: rest).foldlM MergedMeasurement.mergeStep
      { username := first.username, time_start := first.time_start,
        time_end := first.time_end, cpu_usage := 0, mem_usage := 0, processes := ∅ }

/-- ProcessSnapshots (processes.py): one named group tracked for one user,
with its deque of merged per-tick entries as a list in insertion order. -/
structure ProcessSnapshots where
  name : Option String
  measurements : List MergedMeasurement
  patterns : CommandFilters
deriving DecidableEq

/-- Object state built by ProcessSnapshots.__init__ just before its
emptiness check runs. -/
def ProcessSnapshots.make (name : Option String) (pats : List String) :
    ProcessSnapshots :=
  { name := name, measurements := [], patterns := CommandFilters.init pats }

/-- Python truthiness of a CommandFilters instance: filters.py defines
neither a __len__ nor a __bool__ method, so the default object truthiness
applies and every instance is truthy, even one built from no patterns. -/
def CommandFilters.truthy (_ : CommandFilters) : Bool := true

/-- ProcessSnapshots.__init__ (processes.py): raises ValueError when
`not self._patterns` holds, where `self._patterns` is the CommandFilters
object just constructed, so the branch tests that object's truthiness. -/
def ProcessSnapshots.init (name : Option String) (pats : List String) :
    Except String ProcessSnapshots :=
  if (CommandFilters.init pats).truthy = false then .error "no patterns"
  else .ok (ProcessSnapshots.make name pats)

/-- ProcessSnapshots.add_measurements (processes.py): an empty input list
raises ValueError; otherwise the measurements matching the group filter are
merged into one entry and appended, and when none match nothing happens. -/
def ProcessSnapshots.add_measurements (ps : ProcessSnapshots)
    (items : List ProcMeasurement) : Except String ProcessSnapshots :=
  if items = [] then .error "no measurements"
  else
    let matched := items.filter fun it => ps.patterns.call it.command
    if matched = [] then .ok ps
    else do
      let merged ← MergedMeasurement.from_measurements matched
      .ok { ps with measurements := ps.measurements ++ [merged] }

/-- ProcessSnapshots.time_start: Python min over the entries with a NaN
default; the NaN of an empty window is modelled as none. -/
def ProcessSnapshots.time_start (ps : ProcessSnapshots) : Option ℚ :=
  match ps.measurements.map MergedMeasurement.time_start with
  | [] => none
  | x :: xs => some (xs.foldl min x)

/-- ProcessSnapshots.time_end: Python max with a NaN default. -/
def ProcessSnapshots.time_end (ps : ProcessSnapshots) : Option ℚ :=
  match ps.measurements.map MergedMeasurement.time_end with
  | [] => none
  | x :: xs => some (xs.foldl max x)

/-- ProcessSnapshots.average_cpu_usage (processes.py): 0 for an empty
window, otherwise statistics.mean of the per-entry values, an unweighted
arithmetic mean of one value per merged entry. -/
def ProcessSnapshots.average_cpu_usage (ps : ProcessSnapshots) : ℚ :=
  if ps.measurements = [] then 0
  else (ps.measurements.map MergedMeasurement.cpu_usage).sum /
    (ps.measurements.length : ℚ)

/-- ProcessSnapshots.average_mem_usage (processes.py): same unweighted
mean over the per-entry memory values. -/
def ProcessSnapshots.average_mem_usage (ps : ProcessSnapshots) : ℚ :=
  if ps.measurements = [] then 0
  else (ps.measurements.map MergedMeasurement.mem_usage).sum /
    (ps.measurements.length : ℚ)

/-- ProcessSnapshots.peak_cpu_usage: Python max with default 0. -/
def ProcessSnapshots.peak_cpu_usage (ps : ProcessSnapshots) : ℚ :=
  match ps.measurements.map MergedMeasurement.cpu_usage with
  | [] => 0
  | x :: xs => xs.foldl max x

/-- ProcessSnapshots.peak_mem_usage: Python max with default 0. -/
def ProcessSnapshots.peak_mem_usage (ps : ProcessSnapshots) : ℚ :=
  match ps.measurements.map MergedMeasurement.mem_usage with
  | [] => 0
  | x :: xs => xs.foldl max x

/-- ProcessSnapshots.processes (processes.py): the number of distinct
unique process identities across the entries of the window. -/
def ProcessSnapshots.processCount (ps : ProcessSnapshots) : ℕ :=
  (ps.measurements.foldl (fun acc it => acc ∪ it.processes)
    (∅ : Finset UniqueProcess)).card

/-- SystemMeasurement (system.py): one system-wide sample. -/
structure SystemMeasurement where
  time_start : ℚ
  time_end : ℚ
  users : Finset String
  user_processes : Finset UniqueProcess
  cpu_usage : ℚ := 0
  mem_usage : ℚ := 0
deriving DecidableEq

/-- SystemSnapshots (system.py) holds a deque of system measurements,
modelled as the list of measurements in insertion order. -/
abbrev SystemSnapshots := List SystemMeasurement

/-- SystemSnapshots.time_start: Python min with a NaN default (none). -/
def SystemSnapshots.time_start (ms : SystemSnapshots) : Option ℚ :=
  match ms.map SystemMeasurement.time_start with
  | [] => none
  | x :: xs => some (xs.foldl min x)

/-- SystemSnapshots.time_end: Python max with a NaN default (none). -/
def SystemSnapshots.time_end (ms : SystemSnapshots) : Option ℚ :=
  match ms.map SystemMeasurement.time_end with
  | [] => none
  | x :: xs => some (xs.foldl max x)

/-- SystemSnapshots._mean_statistic (system.py): 0 for an empty window;
otherwise each value is multiplied by the duration of its entry, the
resulting list goes through statistics.mean (its sum divided by its
length), and that mean is divided by the total timespan. -/
def SystemSnapshots.mean_statistic (ms : SystemSnapshots)
    (key : SystemMeasurement → ℚ) : ℚ :=
  if ms = [] then 0
  else
    ((ms.map fun it => key it * (it.time_end - it.time_start)).sum /
        (ms.length : ℚ)) /
      (ms.map fun it => it.time_end - it.time_start).sum

/-- SystemSnapshots.average_cpu_usage (system.py). -/
def SystemSnapshots.average_cpu_usage (ms : SystemSnapshots) : ℚ :=
  ms.mean_statistic SystemMeasurement.cpu_usage

/-- SystemSnapshots.average_mem_usage (system.py). -/
def SystemSnapshots.average_mem_usage (ms : SystemSnapshots) : ℚ :=
  ms.mean_statistic SystemMeasurement.mem_usage

/-- SystemSnapshots.peak_cpu_usage: Python max with default 0. -/
def SystemSnapshots.peak_cpu_usage (ms : SystemSnapshots) : ℚ :=
  match ms.map SystemMeasurement.cpu_usage with
  | [] => 0
  | x :: xs => xs.foldl max x

/-- SystemSnapshots.peak_mem_usage: Python max with default 0. -/
def SystemSnapshots.peak_mem_usage (ms : SystemSnapshots) : ℚ :=
  match ms.map SystemMeasurement.mem_usage with
  | [] => 0
  | x :: xs => xs.foldl max x

/-- SystemSnapshots.users (system.py): number of distinct usernames. -/
def SystemSnapshots.usersCount (ms : SystemSnapshots) : ℕ :=
  (ms.foldl (fun acc it => acc ∪ it.users) (∅ : Finset String)).card

/-- SystemSnapshots.user_processes (system.py): number of distinct unique
process identities observed system-wide. -/
def SystemSnapshots.userProcessesCount (ms : SystemSnapshots) : ℕ :=
  (ms.foldl (fun acc it => acc ∪ it.user_processes)
    (∅ : Finset UniqueProcess)).card

/-- timestamp_to_round_utc (cmds/monitor.py): datetime.fromtimestamp with
the microseconds zeroed, i.e. the timestamp truncated to a whole second.
fromtimestamp raises ValueError on NaN — which is what the min/max of an
empty window produce; that NaN is modelled as none. -/
def timestamp_to_round_utc : Option ℚ → Except String Int
  | none => .error "Invalid value NaN (not a number)"
  | some ts => .ok ⌊ts⌋

/-- ProcUtilization row (models.py), as built by ProcUtilization.new. -/
structure ProcUtilization where
  hostname : String
  user : Option String
  group : Option String
  time_start : Int
  time_end : Int
  average_cpu : ℚ
  average_mem : ℚ
  peak_cpu : ℚ
  peak_mem : ℚ
  processes : ℕ
deriving DecidableEq

/-- SystemUtilization row (models.py), as built by SystemUtilization.new. -/
structure SystemUtilization where
  hostname : String
  time_start : Int
  time_end : Int
  average_cpu : ℚ
  average_mem : ℚ
  peak_cpu : ℚ
  peak_mem : ℚ
  users : ℕ
  user_processes : ℕ
deriving DecidableEq

/-- One record handed to the persistence sink at a commit. -/
inductive URecord where
  | proc (r : ProcUtilization)
  | system (r : SystemUtilization)
deriving DecidableEq

/-- Record built for one (user, group) pair inside the loop of
commit_utilization_records (cmds/monitor.py): its interval endpoints are
rounded first, so an empty window (NaN endpoints) raises there, before a
record is produced. -/
def commitGroupRecord (hostname : String) (user : Option String)
    (g : ProcessSnapshots) : Except String ProcUtilization := do
  let ts ← timestamp_to_round_utc g.time_start
  let te ← timestamp_to_round_utc g.time_end
  .ok { hostname := hostname, user := user, group := g.name,
        time_start := ts, time_end := te,
        average_cpu := g.average_cpu_usage, average_mem := g.average_mem_usage,
        peak_cpu := g.peak_cpu_usage, peak_mem := g.peak_mem_usage,
        processes := g.processCount }

/-- Inner loop of commit_utilization_records over the groups of one user:
one record is appended for every group, with no emptiness check. -/
def commitGroups (hostname : String) (user : Option String) :
    List ProcessSnapshots → Except String (List URecord)
  | [] => .ok []
  | g :: gs => do
    let r ← commitGroupRecord hostname user g
    let rest ← commitGroups hostname user gs
    .ok (URecord.proc r :: rest)

/-- Outer loop of commit_utilization_records over the users dict, in
insertion order. -/
def commitUsers (hostname : String) :
    List (Option String × List ProcessSnapshots) → Except String (List URecord)
  | [] => .ok []
  | (user, gs) :: rest => do
    let l1 ← commitGroups hostname user gs
    let l2 ← commitUsers hostname rest
    .ok (l1 ++ l2)

/-- commit_utilization_records (cmds/monitor.py): one ProcUtilization
record per (user, group) pair in the trackers dict, then one
SystemUtilization record for the system window, appended last. -/
def commit_utilization_records (hostname : String) (system : SystemSnapshots)
    (users : List (Option String × List ProcessSnapshots)) :
    Except String (List URecord) := do
  let recs ← commitUsers hostname users
  let ts ← timestamp_to_round_utc system.time_start
  let te ← timestamp_to_round_utc system.time_end
  .ok (recs ++ [URecord.system {
    hostname := hostname, time_start := ts, time_end := te,
    average_cpu := system.average_cpu_usage,
    average_mem := system.average_mem_usage,
    peak_cpu := system.peak_cpu_usage, peak_mem := system.peak_mem_usage,
    users := system.usersCount,
    user_processes := system.userProcessesCount }])

/-- Snapshot (monitors.py): one tick's atomic sample. -/
structure Snapshot where
  timestamp : ℚ
  system : SystemMeasurement
  processes : List ProcMeasurement
deriving DecidableEq

/-- Configuration the loop of main (cmds/monitor.py) runs with: the
hostname stamped on records, the commit interval in seconds (the
utilization resolution in minutes times 60), and the configured named
groups in configuration order. -/
structure MonitorConfig where
  hostname : String
  record_interval : ℚ
  process_groups : List (String × List String)

/-- _calculate_next_snapshot (cmds/monitor.py main): the next strict
multiple of the record interval after the timestamp, via Python floor
division. -/
def calculate_next_snapshot (record_interval : ℚ) (timestamp : ℚ) : ℚ :=
  (⌊timestamp / record_interval⌋ + 1) * record_interval

/-- create_user_trackers (cmds/monitor.py): one tracker per configured
group, then the catch-all tracker with name None. The source passes the
bare string as the patterns iterable of the catch-all; iterating a Python
string yields its characters, here the single pattern. The constructor
never raises (its emptiness check is dead, see the C4 theorem), so the
constructed object is used directly. -/
def create_user_trackers (groups : List (String × List String)) :
    List ProcessSnapshots :=
  (groups.map fun g => ProcessSnapshots.make (some g.1) g.2) ++
    [ProcessSnapshots.make none ["*"]]

/-- Loop body of aggregate (utilities.py) specialised to grouping process
measurements by username: a Python dict keeps first-appearance key order. -/
def aggregateStep (acc : List (Option String × List ProcMeasurement))
    (it : ProcMeasurement) : List (Option String × List ProcMeasurement) :=
  if acc.any fun p => p.1 = it.username then
    acc.map fun p => if p.1 = it.username then (p.1, p.2 ++ [it]) else p
  else acc ++ [(it.username, [it])]

/-- aggregate (utilities.py): group a tick's measurements by username. -/
def aggregate (items : List ProcMeasurement) :
    List (Option String × List ProcMeasurement) :=
  items.foldl aggregateStep []

/-- Fan-out of one tick's measurements for one user (loop body of main,
cmds/monitor.py): `user_utilization[user]` is a defaultdict access that
creates the trackers on first sight of the user, after which every tracker
of that user receives the user's measurements of this tick. -/
def updateUserGroups (cfg : MonitorConfig)
    (users : List (Option String × List ProcessSnapshots))
    (user : Option String) (procs : List ProcMeasurement) :
    Except String (List (Option String × List ProcessSnapshots)) := do
  let current := match users.find? (fun p => p.1 = user) with
    | some p => p.2
    | none => create_user_trackers cfg.process_groups
  let updated ← current.mapM fun g => g.add_measurements procs
  if users.any fun p => p.1 = user then
    .ok (users.map fun p => if p.1 = user then (user, updated) else p)
  else
    .ok (users ++ [(user, updated)])

/-- State carried across iterations of the loop in main (cmds/monitor.py):
the next commit boundary, the system window, and the per-user trackers
dict in insertion order. -/
structure LoopState where
  next_commit : ℚ
  system : SystemSnapshots
  users : List (Option String × List ProcessSnapshots)
deriving DecidableEq

/-- One iteration of the loop in main (cmds/monitor.py): first the drift
check, which realigns the boundary to the next multiple of the record
interval when the snapshot timestamp has drifted 10 seconds or more past
it (the source comment says records are merged in that case; no window is
cleared there); then the snapshot is added to the system window and fanned
out per user; finally, when the timestamp has reached the boundary minus
the 0.1 second tolerance, records are committed and all windows are reset,
the following boundary being computed from min(timestamp + 0.1, now) where
now is the wall clock read after the commit. Returns the new state and the
records handed to the persistence sink, empty when no commit happened. -/
def monitorStep (cfg : MonitorConfig) (st : LoopState) (snap : Snapshot)
    (now : ℚ) : Except String (LoopState × List URecord) := do
  let next0 : ℚ :=
    if snap.timestamp - st.next_commit ≥ 10 then
      calculate_next_snapshot cfg.record_interval snap.timestamp
    else st.next_commit
  let system1 := st.system ++ [snap.system]
  let users1 ← (aggregate snap.processes).foldlM
    (fun us p => updateUserGroups cfg us p.1 p.2) st.users
  if snap.timestamp + 1/10 ≥ next0 then
    let records ← commit_utilization_records cfg.hostname system1 users1
    let timestamp := min (snap.timestamp + 1/10) now
    .ok ({ next_commit := calculate_next_snapshot cfg.record_interval timestamp,
           system := [], users := [] }, records)
  else
    .ok ({ next_commit := next0, system := system1, users := users1 }, [])

/-- The loop of main over a finite snapshot sequence, as replay mode runs
it (the Monitor yields exactly a fixed list). The clock function supplies
the time.time() reading taken at the k-th commit. -/
def monitorRunGo (cfg : MonitorConfig) (clock : ℕ → ℚ) :
    LoopState → ℕ → List Snapshot → Except String (List URecord)
  | _, _, [] => .ok []
  | st, k, snap :: rest => do
    let (st1, recs) ← monitorStep cfg st snap (clock k)
    let more ← monitorRunGo cfg clock st1 (if recs.isEmpty then k else k + 1) rest
    .ok (recs ++ more)

/-- main (cmds/monitor.py) from loop entry: the first commit boundary is
computed from the wall clock at startup, before any snapshot is consumed —
in replay mode too. -/
def monitorRun (cfg : MonitorConfig) (startTime : ℚ) (clock : ℕ → ℚ)
    (snaps : List Snapshot) : Except String (List URecord) :=
  monitorRunGo cfg clock
    { next_commit := calculate_next_snapshot cfg.record_interval startTime,
      system := [], users := [] } 0 snaps

/-- Monitor (monitors.py): replay_in is the snapshot list replay mode will
yield; replay_out models the contents of the save file, some when the file
has been opened for writing. -/
structure Monitor where
  replay_in : Option (List Snapshot)
  replay_out : Option (List Snapshot)
deriving DecidableEq

/-- Reordering _load_replay (monitors.py) applies to the parsed snapshot
list before replaying: the returned value is `result.val[::-1]`, the
parsed list reversed. -/
def Monitor.replay_sequence (parsed : List Snapshot) : List Snapshot :=
  parsed.reverse

/-- File open performed by _load_replay: the source opens the path with
mode "rb" together with an encoding argument, which Python's io.open
rejects with a ValueError before anything is read. -/
def Monitor.open_replay_file : Except String Unit :=
  .error "binary mode does not take an encoding argument"

/-- Monitor._load_replay (monitors.py): opens the file (which raises, see
Monitor.open_replay_file), then would parse it and return the reversed
snapshot list. -/
def Monitor.load_replay (parsed : List Snapshot) :
    Except String (List Snapshot) := do
  let _ ← Monitor.open_replay_file
  .ok (Monitor.replay_sequence parsed)

/-- Monitor.__init__ (monitors.py): the save file is opened for writing
only when BOTH a load path and a save path are given; with only a load
path the replay input is loaded; with only a save path neither branch runs
and no file is opened. The load file is taken as already parsed here; the
open-mode defect of _load_replay is modelled separately. -/
def Monitor.init (load_replay : Option (List Snapshot)) (save_replay : Bool) :
    Monitor :=
  if load_replay.isSome ∧ save_replay then
    { replay_in := none, replay_out := some [] }
  else
    match load_replay with
    | some parsed =>
      { replay_in := some (Monitor.replay_sequence parsed), replay_out := none }
    | none => { replay_in := none, replay_out := none }

/-- Monitor.__iter__ (monitors.py): yields the replay input when present,
otherwise the live samples; the loop body contains no write to
_replay_out, so the save file contents never change. Returns the yielded
snapshots together with the monitor after iteration. -/
def Monitor.iter (m : Monitor) (live : List Snapshot) :
    List Snapshot × Monitor :=
  match m.replay_in with
  | some snaps => (snaps, m)
  | none => (live, m)

/-- Sample system measurement over the interval from t0 to t1, with cpu
usage v and mem usage v/2 and nothing observed per user. -/
def sampleSys (t0 t1 v : ℚ) : SystemMeasurement :=
  { time_start := t0, time_end := t1, users := ∅, user_processes := ∅,
    cpu_usage := v, mem_usage := v / 2 }

/-- Sample snapshot at timestamp t with no process measurements, covering
the preceding five-second tick interval at full load. -/
def sampleSnap (t : ℚ) : Snapshot :=
  { timestamp := t, system := sampleSys (t - 5) t 1, processes := [] }

/-- Loop configuration with a five-minute record interval and no
configured named groups. -/
def cfg300 : MonitorConfig :=
  { hostname := "host", record_interval := 300, process_groups := [] }

/-- The single record the sampling loop commits when it is started at a
wall-clock time inside the same five-minute window as the one replayed
snapshot at timestamp 301. -/
def lateStartRecord : URecord :=
  URecord.system
    { hostname := "host", time_start := 296, time_end := 301,
      average_cpu := 1, average_mem := 1/2, peak_cpu := 1, peak_mem := 1/2,
      users := 0, user_processes := 0 }

/-! Theorems. Helper lemmas come first, then one theorem per claim of the
specification, each with its witness or counterexample where required. -/

/-- Patterns kept as glob rules by the constructor fold, with a general
accumulator. -/
theorem foldl_addPattern_patterns (pats : List String) (cf : CommandFilters) :
    (pats.foldl CommandFilters.addPattern cf).patterns =
      cf.patterns ++ pats.filter fun p =>
        p.data.contains '*' || p.data.contains '[' || p.data.contains ']' := by
  induction pats generalizing cf with
  | nil => simp
  | cons p rest ih =>
    simp only [List.foldl_cons, List.filter_cons]
    by_cases h : ('*' ∈ p.data ∨ '[' ∈ p.data ∨ ']' ∈ p.data)
    · rw [ih]
      simp [CommandFilters.addPattern, h, or_assoc]
    · rw [ih]
      simp [CommandFilters.addPattern, h, or_assoc]

/-- Membership in the literal executable set built by the constructor fold,
with a general accumulator. -/
theorem foldl_addPattern_executables (pats : List String) (cf : CommandFilters)
    (x : String) :
    x ∈ (pats.foldl CommandFilters.addPattern cf).executables ↔
      x ∈ cf.executables ∨ (x ∈ pats ∧
        ¬ ('*' ∈ x.data ∨ '[' ∈ x.data ∨ ']' ∈ x.data)) := by
  induction pats generalizing cf with
  | nil => simp
  | cons p rest ih =>
    simp only [List.foldl_cons]
    rw [ih]
    by_cases h : ('*' ∈ p.data ∨ '[' ∈ p.data ∨ ']' ∈ p.data)
    · rw [CommandFilters.addPattern, if_pos (by simpa [or_assoc] using h)]
      constructor
      · rintro (hx | hx)
        · exact Or.inl hx
        · exact Or.inr ⟨List.mem_cons_of_mem p hx.1, hx.2⟩
      · rintro (hx | ⟨hmem, hglob⟩)
        · exact Or.inl hx
        · rcases List.mem_cons.mp hmem with rfl | hmem
          · exact absurd h hglob
          · exact Or.inr ⟨hmem, hglob⟩
    · rw [CommandFilters.addPattern, if_neg (by simpa [or_assoc] using h)]
      simp only [Finset.mem_insert]
      constructor
      · rintro ((rfl | hx) | hx)
        · exact Or.inr ⟨List.mem_cons_self _ _, h⟩
        · exact Or.inl hx
        · exact Or.inr ⟨List.mem_cons_of_mem p hx.1, hx.2⟩
      · rintro (hx | ⟨hmem, hglob⟩)
        · exact Or.inl (Or.inr hx)
        · rcases List.mem_cons.mp hmem with rfl | hmem
          · exact Or.inl (Or.inl rfl)
          · exact Or.inr ⟨hmem, hglob⟩

/-- C9: a pattern string is classified as a glob rule iff it contains at
least one of the characters asterisk, opening bracket or closing bracket;
consequently a pattern containing a question mark but none of those three
characters, such as "python?", is treated as a literal executable basename
and never participates in glob matching, even though as a glob it would
match "python3". -/
theorem c9_glob_classification :
    ((∀ pats : List String, (CommandFilters.init pats).patterns =
        pats.filter fun p =>
          p.data.contains '*' || p.data.contains '[' || p.data.contains ']') ∧
      (∀ (pats : List String) (pat : String), pat ∈ pats →
        (pat ∈ (CommandFilters.init pats).executables ↔
          ¬ ('*' ∈ pat.data ∨ '[' ∈ pat.data ∨ ']' ∈ pat.data)))) ∧
    (CommandFilters.init ["python?"]).patterns = [] ∧
    "python?" ∈ (CommandFilters.init ["python?"]).executables ∧
    fnmatch "python3" "python?" = true ∧
    CommandFilters.call (CommandFilters.init ["python?"]) (some ["python3"]) = false := by
  refine ⟨⟨?_, ?_⟩, by decide, by decide, by decide, by decide⟩
  · intro pats
    simpa using foldl_addPattern_patterns pats { executables := ∅, patterns := [] }
  · intro pats pat hmem
    unfold CommandFilters.init
    rw [foldl_addPattern_executables]
    simp [hmem, or_assoc]

/-- C9 witness: the general classification facts instantiated at the
concrete single-pattern list containing "python?". -/
theorem c9_glob_classification_witness :
    ("python?" ∈ (CommandFilters.init ["python?"]).executables ↔
      ¬ ('*' ∈ "python?".data ∨ '[' ∈ "python?".data ∨ ']' ∈ "python?".data)) :=
  c9_glob_classification.1.2 ["python?"] "python?" (by decide)

/-- Match procedure as the specification describes it, stated over the raw
configured pattern list: an empty or unavailable command matches only when
the wildcard-everything pattern "*" was configured; otherwise the command
matches when the basename of its first argument is among the patterns kept
as literal executable names, or when some glob pattern matches the command
joined with spaces. -/
def specCommandMatch (pats : List String) (command : Option (List String)) : Bool :=
  let lits := pats.filter fun p =>
    ! (p.data.contains '*' || p.data.contains '[' || p.data.contains ']')
  let globs := pats.filter fun p =>
    p.data.contains '*' || p.data.contains '[' || p.data.contains ']'
  match command with
  | none => pats.contains "*"
  | some cmd =>
    if cmd = [] then pats.contains "*"
    else lits.contains (pathName (cmd.headD "")) ||
      globs.any fun pat => fnmatch (" ".intercalate cmd) pat

/-- C7: for every constructed CommandFilter and every command the code
matches exactly as the spec describes — empty or unavailable commands
match iff the wildcard-everything pattern "*" was configured, and other
commands match iff the basename of the first argument is in the literal
set or some glob pattern matches the space-joined command; in particular
the filter built from "sshd" matches the sshd daemon command line and the
filter built from "*.py" does not match the bare python3 interpreter. -/
theorem c7_command_filter_matches_spec :
    (∀ (pats : List String) (command : Option (List String)),
      CommandFilters.call (CommandFilters.init pats) command =
        specCommandMatch pats command) ∧
    CommandFilters.call (CommandFilters.init ["sshd"])
      (some ["/usr/sbin/sshd", "-D"]) = true ∧
    CommandFilters.call (CommandFilters.init ["*.py"])
      (some ["/usr/bin/python3"]) = false := by
  refine ⟨?_, by decide, by decide⟩
  intro pats command
  have hpat : (CommandFilters.init pats).patterns =
      pats.filter fun p =>
        p.data.contains '*' || p.data.contains '[' || p.data.contains ']' :=
    by simpa using foldl_addPattern_patterns pats { executables := ∅, patterns := [] }
  cases command with
  | none =>
    simp only [CommandFilters.call, specCommandMatch, hpat]
    rcases Bool.eq_false_or_eq_true (pats.contains "*") with h | h <;>
      simp_all [List.mem_filter]
  | some cmd =>
    by_cases hcmd : cmd = []
    · simp only [CommandFilters.call, specCommandMatch, hpat, if_pos hcmd]
      rcases Bool.eq_false_or_eq_true (pats.contains "*") with h | h <;>
        simp_all [List.mem_filter]
    · simp only [CommandFilters.call, specCommandMatch, hpat, if_neg hcmd]
      have hlit : pathName (cmd.headD "") ∈ (CommandFilters.init pats).executables ↔
          ((pats.filter fun p =>
            ! (p.data.contains '*' || p.data.contains '[' || p.data.contains ']')).contains
              (pathName (cmd.headD "")) = true) := by
        rw [CommandFilters.init, foldl_addPattern_executables]
        simp [List.mem_filter, or_assoc, and_assoc]
      by_cases hexe : pathName (cmd.headD "") ∈ (CommandFilters.init pats).executables
      · rw [if_pos hexe, hlit.mp hexe, Bool.true_or]
      · rw [if_neg hexe, Bool.eq_false_iff.mpr fun h => hexe (hlit.mpr h),
          Bool.false_or]

/-- C4: constructing a ProcessSnapshots group from an empty pattern
collection does NOT raise — for every name and pattern list the
constructor succeeds, because its emptiness check `not self._patterns`
tests the truthiness of the CommandFilters object, which defines neither
__len__ nor __bool__ and is therefore always truthy. The ValueError the
spec promises is dead code; the general fact is evaluated below at the
empty pattern collection. -/
theorem c4_empty_patterns_accepted :
    (∀ (name : Option String) (pats : List String),
      ProcessSnapshots.init name pats = .ok (ProcessSnapshots.make name pats)) ∧
    ProcessSnapshots.init (some "mygroup") [] =
      .ok (ProcessSnapshots.make (some "mygroup") []) :=
  ⟨fun _ _ => rfl, rfl⟩

/-- C10: add_measurements with an empty collection raises ValueError
before any filtering, and a non-empty collection in which no measurement
matches the group filter is a silent no-op leaving the window unchanged. -/
theorem c10_add_measurements_empty_vs_unmatched (ps : ProcessSnapshots)
    (items : List ProcMeasurement) :
    (items = [] → ps.add_measurements items = .error "no measurements") ∧
    (items ≠ [] →
      items.filter (fun it => ps.patterns.call it.command) = [] →
      ps.add_measurements items = .ok ps) := by
  constructor
  · intro h
    subst h
    rfl
  · intro h hf
    simp [ProcessSnapshots.add_measurements, h, hf]

/-- Group filtering only sshd command lines, as built by the dead-check
constructor path. -/
def sshdGroup : ProcessSnapshots := ProcessSnapshots.make (some "ssh") ["sshd"]

/-- Measurement of a process whose command line does not match sshdGroup. -/
def lsMeasurement : ProcMeasurement :=
  { pid := 10, username := some "alice", time_start := 0, time_end := 5,
    cpu_usage := 1/2, mem_usage := 1/4, command := some ["/bin/ls"],
    create_time := some 3 }

/-- C10 witness: the theorem applied to the sshd group with the empty
collection and with a one-element collection that matches nothing. -/
theorem c10_add_measurements_witness :
    sshdGroup.add_measurements [] = .error "no measurements" ∧
    sshdGroup.add_measurements [lsMeasurement] = .ok sshdGroup :=
  ⟨(c10_add_measurements_empty_vs_unmatched sshdGroup []).1 rfl,
    (c10_add_measurements_empty_vs_unmatched sshdGroup [lsMeasurement]).2
      (by simp) (by decide)⟩

/-- Bookkeeping of the merge fold: a successful fold from any accumulator
leaves the identifying fields as they were, sums every cpu and mem
contribution, and extends the identity set by the ids collected along the
list. -/
theorem foldlM_mergeStep_ok (items : List ProcMeasurement) :
    ∀ acc r : MergedMeasurement,
      items.foldlM MergedMeasurement.mergeStep acc = .ok r →
      r.processes = items.foldl identityStep acc.processes ∧
      r.cpu_usage = acc.cpu_usage + (items.map ProcMeasurement.cpu_usage).sum ∧
      r.mem_usage = acc.mem_usage + (items.map ProcMeasurement.mem_usage).sum := by
  induction items with
  | nil =>
    intro acc r h
    simp only [List.foldlM_nil, pure, Except.pure, Except.ok.injEq] at h
    subst h
    simp
  | cons it rest ih =>
    intro acc r h
    rw [List.foldlM_cons] at h
    cases hstep : MergedMeasurement.mergeStep acc it with
    | error e =>
      rw [hstep] at h
      simp [Bind.bind, Except.bind] at h
    | ok acc1 =>
      rw [hstep] at h
      simp only [Bind.bind, Except.bind] at h
      obtain ⟨h1, h2, h3⟩ := ih acc1 r h
      unfold MergedMeasurement.mergeStep at hstep
      split_ifs at hstep
      injection hstep with hstep
      subst hstep
      refine ⟨?_, ?_, ?_⟩
      · simpa [List.foldl_cons] using h1
      · simp only [h2, List.map_cons, List.sum_cons]
        ring
      · simp only [h3, List.map_cons, List.sum_cons]
        ring

/-- Union fold over a window, restated as a finite set union. -/
theorem foldl_union_processes (l : List MergedMeasurement) :
    ∀ acc : Finset UniqueProcess,
      l.foldl (fun acc it => acc ∪ it.processes) acc =
        acc ∪ l.toFinset.biUnion MergedMeasurement.processes := by
  induction l with
  | nil => intro acc; simp
  | cons m rest ih =>
    intro acc
    simp only [List.foldl_cons, ih, List.toFinset_cons, Finset.biUnion_insert]
    ext x
    simp only [Finset.mem_union, Finset.mem_biUnion]
    tauto

/-- C8: the unique-process-count of a window is the cardinality of the
union of the identity sets of its entries, so a process observed across
several ticks counts once; an entry's identity set collects exactly the
(pid, creation time) ids of the measurements whose creation time is known,
while every measurement — creation time known or not — still contributes
to the entry's summed cpu and mem fractions. -/
theorem c8_unique_process_count :
    (∀ (items : List ProcMeasurement) (r : MergedMeasurement),
      MergedMeasurement.from_measurements items = .ok r →
      r.processes = identitySet items ∧
      r.cpu_usage = (items.map ProcMeasurement.cpu_usage).sum ∧
      r.mem_usage = (items.map ProcMeasurement.mem_usage).sum) ∧
    (∀ ps : ProcessSnapshots,
      ps.processCount =
        (ps.measurements.toFinset.biUnion MergedMeasurement.processes).card) := by
  constructor
  · intro items r h
    cases items with
    | nil => simp [MergedMeasurement.from_measurements] at h
    | cons first rest =>
      rw [MergedMeasurement.from_measurements] at h
      have := foldlM_mergeStep_ok (first :: rest) _ r h
      simpa [identitySet] using this
  · intro ps
    unfold ProcessSnapshots.processCount
    rw [foldl_union_processes]
    simp

/-- Measurement with a known creation time (identity id (10, 17)). -/
def knownMeasurement : ProcMeasurement :=
  { pid := 10, username := some "alice", time_start := 0, time_end := 5,
    cpu_usage := 1/2, mem_usage := 1/4, command := some ["/usr/bin/a"],
    create_time := some 17 }

/-- Measurement whose creation time could not be read: excluded from
deduplication but still summed. -/
def unknownMeasurement : ProcMeasurement :=
  { pid := 11, username := some "alice", time_start := 0, time_end := 5,
    cpu_usage := 1/4, mem_usage := 1/4, command := some ["/usr/bin/b"],
    create_time := none }

/-- Merged entry the two measurements above produce: one identity, both
usage contributions. -/
def mergedPair : MergedMeasurement :=
  { username := some "alice", time_start := 0, time_end := 5,
    cpu_usage := 3/4, mem_usage := 1/2,
    processes := {{ pid := 10, create_time := 17 }} }

/-- C8 witness: merging a known-identity measurement with an
unknown-identity one yields the single identity (10, 17) and the summed
fractions 3/4 and 1/2. -/
theorem c8_unique_process_count_witness :
    mergedPair.processes = identitySet [knownMeasurement, unknownMeasurement] ∧
    mergedPair.cpu_usage =
      ([knownMeasurement, unknownMeasurement].map ProcMeasurement.cpu_usage).sum ∧
    mergedPair.mem_usage =
      ([knownMeasurement, unknownMeasurement].map ProcMeasurement.mem_usage).sum :=
  c8_unique_process_count.1 [knownMeasurement, unknownMeasurement] mergedPair
    (by norm_num [MergedMeasurement.from_measurements,
      MergedMeasurement.mergeStep, List.foldlM, identityStep,
      ProcMeasurement.unique_id, knownMeasurement, unknownMeasurement,
      mergedPair, Bind.bind, Except.bind, pure, Except.pure])

/-- Time-weighted mean over a system window, the average §3 and §8 of the
spec define: the sum of value times duration divided by the summed
duration, 0 for an empty window. -/
def timeWeightedMean (ms : List SystemMeasurement)
    (key : SystemMeasurement → ℚ) : ℚ :=
  if ms = [] then 0
  else (ms.map fun it => key it * (it.time_end - it.time_start)).sum /
    (ms.map fun it => it.time_end - it.time_start).sum

/-- Time-weighted mean over a group window, per the same description. -/
def timeWeightedGroupMean (ms : List MergedMeasurement)
    (key : MergedMeasurement → ℚ) : ℚ :=
  if ms = [] then 0
  else (ms.map fun it => key it * (it.time_end - it.time_start)).sum /
    (ms.map fun it => it.time_end - it.time_start).sum

/-- Merged group entry spanning the interval from t0 to t1 with cpu and
mem fractions both v. -/
def mmDur (t0 t1 v : ℚ) : MergedMeasurement :=
  { username := some "alice", time_start := t0, time_end := t1,
    cpu_usage := v, mem_usage := v, processes := ∅ }

/-- C1 (refuted, code bug): the window averages the code computes are NOT
the time-weighted mean. A system window of two one-second entries at full
load averages to 1/2 where the time-weighted mean is 1 (the code divides
the mean of the weighted values — not their sum — by the total timespan,
an extra factor of the entry count), and a group window averages with no
duration weighting at all: entries of durations 1 and 3 with values 0 and
1 average to 1/2 where the time-weighted mean is 3/4. Only the
empty-window clause of the claim holds: both averages are 0 there. -/
theorem c1_average_not_time_weighted :
    SystemSnapshots.mean_statistic [sampleSys 0 1 1, sampleSys 1 2 1]
      SystemMeasurement.cpu_usage = 1/2 ∧
    timeWeightedMean [sampleSys 0 1 1, sampleSys 1 2 1]
      SystemMeasurement.cpu_usage = 1 ∧
    (ProcessSnapshots.mk none [mmDur 0 1 0, mmDur 1 4 1]
      (CommandFilters.init ["*"])).average_cpu_usage = 1/2 ∧
    timeWeightedGroupMean [mmDur 0 1 0, mmDur 1 4 1]
      MergedMeasurement.cpu_usage = 3/4 ∧
    ((1 : ℚ)/2 ≠ 1 ∧ (1 : ℚ)/2 ≠ 3/4) ∧
    SystemSnapshots.mean_statistic [] SystemMeasurement.cpu_usage = 0 ∧
    (ProcessSnapshots.mk none [] (CommandFilters.init ["*"])).average_cpu_usage = 0 := by
  refine ⟨?_, ?_, ?_, ?_, ⟨by norm_num, by norm_num⟩, ?_, ?_⟩ <;>
    norm_num [SystemSnapshots.mean_statistic, timeWeightedMean,
      timeWeightedGroupMean, ProcessSnapshots.average_cpu_usage, sampleSys,
      mmDur, List.cons_ne_nil]

/-- Window state before a suspended interval: a partial system window and
the next boundary at 300 seconds. -/
def preDriftState : LoopState :=
  { next_commit := 300, system := [sampleSys 290 295 1], users := [] }

/-- State the loop reaches from preDriftState on a snapshot 15 seconds
past the boundary: realigned boundary, retained and extended window. -/
def postDriftState : LoopState :=
  { next_commit := 600, system := [sampleSys 290 295 1, sampleSys 310 315 1],
    users := [] }

/-- C2 counterexample: on a snapshot that has drifted 15 seconds past the
300-second boundary (beyond the 10-second tolerance) the loop realigns the
next boundary to 600 but commits nothing and KEEPS the partial window —
the entry accumulated before the missed boundary is still the head of the
system window afterwards, followed by the new snapshot, where the claim
says that partial window is discarded and not carried into the next
window. -/
theorem c2_drift_discard_counterexample :
    monitorStep cfg300 preDriftState (sampleSnap 315) 1000000 =
      .ok (postDriftState, []) ∧
    postDriftState.system.head? = some (sampleSys 290 295 1) := by
  refine ⟨?_, rfl⟩
  norm_num [monitorStep, calculate_next_snapshot, aggregate, cfg300,
    preDriftState, postDriftState, sampleSnap, sampleSys, Bind.bind,
    Except.bind, pure, Except.pure]

/-- C2 (amended): when a snapshot has drifted at least the 10-second
tolerance past the boundary and the realigned boundary is still more than
the 0.1-second commit tolerance in the future, the loop realigns the next
boundary to the next future multiple of the commit interval, commits
nothing, and RETAINS the partial window: the snapshot is appended after
the previously accumulated entries, which are carried into the extended
window rather than discarded. -/
theorem c2_drift_realigns_and_retains_window (cfg : MonitorConfig)
    (st : LoopState) (snap : Snapshot) (now : ℚ) (st1 : LoopState)
    (recs : List URecord)
    (hdrift : snap.timestamp - st.next_commit ≥ 10)
    (hfuture : snap.timestamp + 1/10 <
      calculate_next_snapshot cfg.record_interval snap.timestamp)
    (hstep : monitorStep cfg st snap now = .ok (st1, recs)) :
    recs = [] ∧
    st1.next_commit = calculate_next_snapshot cfg.record_interval snap.timestamp ∧
    st1.system = st.system ++ [snap.system] := by
  simp only [monitorStep] at hstep
  rw [if_pos hdrift] at hstep
  cases hu : (aggregate snap.processes).foldlM
      (fun us p => updateUserGroups cfg us p.1 p.2) st.users with
  | error e =>
    rw [hu] at hstep
    simp [Bind.bind, Except.bind] at hstep
  | ok users1 =>
    rw [hu] at hstep
    simp only [Bind.bind, Except.bind] at hstep
    rw [if_neg (not_le.mpr hfuture)] at hstep
    simp only [Except.ok.injEq, Prod.mk.injEq] at hstep
    obtain ⟨hst, hrecs⟩ := hstep
    subst hst
    subst hrecs
    exact ⟨rfl, rfl, rfl⟩

/-- C2 witness: the amended drift behaviour, instantiated at the concrete
pre-drift state and the snapshot at timestamp 315. -/
theorem c2_drift_retains_witness :
    ([] : List URecord) = [] ∧
    postDriftState.next_commit =
      calculate_next_snapshot cfg300.record_interval (sampleSnap 315).timestamp ∧
    postDriftState.system = preDriftState.system ++ [(sampleSnap 315).system] :=
  c2_drift_realigns_and_retains_window cfg300 preDriftState (sampleSnap 315)
    1000000 postDriftState []
    (by norm_num [preDriftState, sampleSnap])
    (by norm_num [calculate_next_snapshot, cfg300, sampleSnap])
    (by norm_num [monitorStep, calculate_next_snapshot, aggregate, cfg300,
      preDriftState, postDriftState, sampleSnap, sampleSys, Bind.bind,
      Except.bind, pure, Except.pure])

/-- Minimum fold a nonempty group window exposes as its start time. -/
theorem groupWindow_time_start_cons (g : ProcessSnapshots)
    (m : MergedMeasurement) (ms : List MergedMeasurement)
    (hm : g.measurements = m :: ms) :
    g.time_start =
      some ((ms.map MergedMeasurement.time_start).foldl min m.time_start) := by
  unfold ProcessSnapshots.time_start
  rw [hm]
  rfl

/-- Maximum fold a nonempty group window exposes as its end time. -/
theorem groupWindow_time_end_cons (g : ProcessSnapshots)
    (m : MergedMeasurement) (ms : List MergedMeasurement)
    (hm : g.measurements = m :: ms) :
    g.time_end =
      some ((ms.map MergedMeasurement.time_end).foldl max m.time_end) := by
  unfold ProcessSnapshots.time_end
  rw [hm]
  rfl

/-- Record the commit loop builds for one group, given the rounded
interval endpoints. -/
def groupRecordFor (hostname : String) (user : Option String)
    (g : ProcessSnapshots) (ts te : Int) : ProcUtilization :=
  { hostname := hostname, user := user, group := g.name,
    time_start := ts, time_end := te,
    average_cpu := g.average_cpu_usage, average_mem := g.average_mem_usage,
    peak_cpu := g.peak_cpu_usage, peak_mem := g.peak_mem_usage,
    processes := g.processCount }

/-- System record the commit builds, given the rounded endpoints. -/
def systemRecordFor (hostname : String) (system : SystemSnapshots)
    (ts te : Int) : SystemUtilization :=
  { hostname := hostname, time_start := ts, time_end := te,
    average_cpu := system.average_cpu_usage,
    average_mem := system.average_mem_usage,
    peak_cpu := system.peak_cpu_usage, peak_mem := system.peak_mem_usage,
    users := system.usersCount, user_processes := system.userProcessesCount }

/-- A group with a nonempty window always yields a record. -/
theorem commitGroupRecord_ok (hostname : String) (user : Option String)
    (g : ProcessSnapshots) (h : g.measurements ≠ []) :
    ∃ r, commitGroupRecord hostname user g = .ok r := by
  obtain ⟨m, ms, hm⟩ := List.exists_cons_of_ne_nil h
  refine ⟨groupRecordFor hostname user g
    ⌊(ms.map MergedMeasurement.time_start).foldl min m.time_start⌋
    ⌊(ms.map MergedMeasurement.time_end).foldl max m.time_end⌋, ?_⟩
  unfold commitGroupRecord
  rw [groupWindow_time_start_cons g m ms hm,
    groupWindow_time_end_cons g m ms hm]
  rfl

/-- The group loop of the commit yields exactly one record per group when
every window is nonempty. -/
theorem commitGroups_ok (hostname : String) (user : Option String)
    (gs : List ProcessSnapshots) (h : ∀ g ∈ gs, g.measurements ≠ []) :
    ∃ l, commitGroups hostname user gs = .ok l ∧ l.length = gs.length := by
  induction gs with
  | nil => exact ⟨[], rfl, rfl⟩
  | cons g rest ih =>
    obtain ⟨r, hr⟩ :=
      commitGroupRecord_ok hostname user g (h g (List.mem_cons_self g rest))
    obtain ⟨l, hl, hlen⟩ := ih fun g' hg' => h g' (List.mem_cons_of_mem g hg')
    refine ⟨URecord.proc r :: l, ?_, by simp [hlen]⟩
    simp only [commitGroups, hr, hl, Bind.bind, Except.bind]

/-- The user loop of the commit yields one record per (user, group) pair
when every window is nonempty. -/
theorem commitUsers_ok (hostname : String)
    (users : List (Option String × List ProcessSnapshots))
    (h : ∀ p ∈ users, ∀ g ∈ p.2, g.measurements ≠ []) :
    ∃ l, commitUsers hostname users = .ok l ∧
      l.length = (users.map fun p => p.2.length).sum := by
  induction users with
  | nil => exact ⟨[], rfl, rfl⟩
  | cons p rest ih =>
    obtain ⟨u, gs⟩ := p
    obtain ⟨l1, hl1, hlen1⟩ := commitGroups_ok hostname u gs
      (h (u, gs) (List.mem_cons_self _ _))
    obtain ⟨l2, hl2, hlen2⟩ := ih fun q hq => h q (List.mem_cons_of_mem _ hq)
    refine ⟨l1 ++ l2, ?_, by simp [hlen1, hlen2]⟩
    simp only [commitUsers, hl1, hl2, Bind.bind, Except.bind]

/-- Minimum fold a nonempty system window exposes as its start time. -/
theorem systemWindow_time_start_cons (m : SystemMeasurement)
    (ms : List SystemMeasurement) :
    SystemSnapshots.time_start (m :: ms) =
      some ((ms.map SystemMeasurement.time_start).foldl min m.time_start) := rfl

/-- Maximum fold a nonempty system window exposes as its end time. -/
theorem systemWindow_time_end_cons (m : SystemMeasurement)
    (ms : List SystemMeasurement) :
    SystemSnapshots.time_end (m :: ms) =
      some ((ms.map SystemMeasurement.time_end).foldl max m.time_end) := rfl

/-- C6 (amended): at a commit boundary the code builds one record for
EVERY (user, group) pair present in the tracker map plus one system
record: when every pair's window is nonempty the commit succeeds with
exactly (number of pairs) + 1 records, each interval truncated to whole
seconds by construction; a pair with an empty window is not skipped — it
makes the whole commit raise ValueError (see the counterexample). -/
theorem c6_record_per_pair (hostname : String) (system : SystemSnapshots)
    (users : List (Option String × List ProcessSnapshots))
    (hsys : system ≠ [])
    (hne : ∀ p ∈ users, ∀ g ∈ p.2, g.measurements ≠ []) :
    ∃ recs, commit_utilization_records hostname system users = .ok recs ∧
      recs.length = (users.map fun p => p.2.length).sum + 1 := by
  obtain ⟨l, hl, hlen⟩ := commitUsers_ok hostname users hne
  obtain ⟨m, ms, hm⟩ := List.exists_cons_of_ne_nil hsys
  subst hm
  refine ⟨l ++ [URecord.system (systemRecordFor hostname (m :: ms)
    ⌊(ms.map SystemMeasurement.time_start).foldl min m.time_start⌋
    ⌊(ms.map SystemMeasurement.time_end).foldl max m.time_end⌋)], ?_, ?_⟩
  · unfold commit_utilization_records
    rw [hl, systemWindow_time_start_cons, systemWindow_time_end_cons]
    rfl
  · simp [hlen]

/-- Group whose configured rules matched nothing in this window. -/
def idleGroup : ProcessSnapshots := ProcessSnapshots.make (some "idle") ["sshd"]

/-- Catch-all group with one merged entry in its window. -/
def busyGroup : ProcessSnapshots :=
  { name := none, measurements := [mmDur 0 5 1],
    patterns := CommandFilters.init ["*"] }

/-- C6 counterexample: committing while one (user, group) pair holds an
empty window does not skip that pair — the NaN interval endpoints of the
empty window make the commit raise ValueError, so no record list is
produced at all, where the claim says the empty pair merely yields no
record while the others are built. -/
theorem c6_empty_pair_counterexample :
    commit_utilization_records "host" [sampleSys 0 300 1]
        [(some "alice", [idleGroup, busyGroup])] =
      .error "Invalid value NaN (not a number)" := by
  norm_num [commit_utilization_records, commitUsers, commitGroups,
    commitGroupRecord, idleGroup, ProcessSnapshots.make,
    ProcessSnapshots.time_start, timestamp_to_round_utc, Bind.bind,
    Except.bind, pure, Except.pure]

/-- C6 witness: with the single nonempty pair the commit succeeds and
yields that pair's record plus the system record. -/
theorem c6_record_per_pair_witness :
    ∃ recs, commit_utilization_records "host" [sampleSys 0 300 1]
        [(some "alice", [busyGroup])] = .ok recs ∧
      recs.length = ([(some "alice", [busyGroup])].map
        fun p => p.2.length).sum + 1 :=
  c6_record_per_pair "host" [sampleSys 0 300 1] [(some "alice", [busyGroup])]
    (by simp)
    (by rintro p hp g hg
        simp only [List.mem_singleton] at hp
        subst hp
        simp only [List.mem_singleton] at hg
        subst hg
        simp [busyGroup])

/-- The wall clock read at a commit only matters through
min(timestamp + 0.1, now): two readings at or beyond the tolerance-shifted
timestamp give identical steps. -/
theorem monitorStep_clock_irrelevant (cfg : MonitorConfig) (st : LoopState)
    (snap : Snapshot) (now1 now2 : ℚ)
    (h1 : snap.timestamp + 1/10 ≤ now1) (h2 : snap.timestamp + 1/10 ≤ now2) :
    monitorStep cfg st snap now1 = monitorStep cfg st snap now2 := by
  unfold monitorStep
  simp only [min_eq_left h1, min_eq_left h2]

/-- The loop's committed records do not depend on the commit-time clock
readings, nor on the clock index, as long as every reading is at or past
every snapshot's tolerance-shifted timestamp. -/
theorem monitorRunGo_clock_irrelevant (cfg : MonitorConfig)
    (clock1 clock2 : ℕ → ℚ) :
    ∀ snaps : List Snapshot,
      (∀ (i : ℕ), ∀ s ∈ snaps,
        s.timestamp + 1/10 ≤ clock1 i ∧ s.timestamp + 1/10 ≤ clock2 i) →
      ∀ (st : LoopState) (k1 k2 : ℕ),
        monitorRunGo cfg clock1 st k1 snaps =
          monitorRunGo cfg clock2 st k2 snaps := by
  intro snaps
  induction snaps with
  | nil => intro _ st k1 k2; rfl
  | cons s rest ih =>
    intro hc st k1 k2
    have hstep := monitorStep_clock_irrelevant cfg st s (clock1 k1) (clock2 k2)
      (hc k1 s (List.mem_cons_self s rest)).1
      (hc k2 s (List.mem_cons_self s rest)).2
    simp only [monitorRunGo]
    rw [hstep]
    cases hres : monitorStep cfg st s (clock2 k2) with
    | error e => simp [Bind.bind, Except.bind]
    | ok pr =>
      simp only [Bind.bind, Except.bind]
      rw [ih (fun i s' hs' => hc i s' (List.mem_cons_of_mem s hs'))]

/-- C5 (amended): replay determinism holds only up to the wall clock. The
initial commit boundary is computed from the real start time and the
boundary after each commit from a real clock reading, so two replay runs
over the same snapshot sequence produce identical committed records
whenever both start times map to the same initial boundary and every
commit-time clock reading lies at or past each snapshot's
tolerance-shifted timestamp (e.g. replaying data from the past); without
those conditions the records can differ (see the counterexample). -/
theorem c5_replay_deterministic_up_to_clock (cfg : MonitorConfig)
    (snaps : List Snapshot) (start1 start2 : ℚ) (clock1 clock2 : ℕ → ℚ)
    (hstart : calculate_next_snapshot cfg.record_interval start1 =
      calculate_next_snapshot cfg.record_interval start2)
    (hclock : ∀ (i : ℕ), ∀ s ∈ snaps,
      s.timestamp + 1/10 ≤ clock1 i ∧ s.timestamp + 1/10 ≤ clock2 i) :
    monitorRun cfg start1 clock1 snaps = monitorRun cfg start2 clock2 snaps := by
  unfold monitorRun
  rw [hstart]
  exact monitorRunGo_clock_irrelevant cfg clock1 clock2 snaps hclock _ 0 0

/-- C5 counterexample: replaying the identical snapshot sequence through
identical loop code commits one record when the run starts at wall time
100 but none when it starts at wall time 400, because the initial boundary
is derived from the real clock rather than from the replayed data — so
replay-mode output is not a function of the snapshot sequence alone. -/
theorem c5_start_time_counterexample :
    monitorRun cfg300 100 (fun _ => 1000000) [sampleSnap 301] =
      .ok [lateStartRecord] ∧
    monitorRun cfg300 400 (fun _ => 1000000) [sampleSnap 301] = .ok [] ∧
    (Except.ok [lateStartRecord] : Except String (List URecord)) ≠ .ok [] := by
  refine ⟨?_, ?_, by simp⟩
  · norm_num [monitorRun, monitorRunGo, monitorStep, calculate_next_snapshot,
      aggregate, cfg300, sampleSnap, sampleSys, commit_utilization_records,
      commitUsers, timestamp_to_round_utc, SystemSnapshots.time_start,
      SystemSnapshots.time_end, SystemSnapshots.average_cpu_usage,
      SystemSnapshots.average_mem_usage, SystemSnapshots.mean_statistic,
      SystemSnapshots.peak_cpu_usage, SystemSnapshots.peak_mem_usage,
      SystemSnapshots.usersCount, SystemSnapshots.userProcessesCount,
      lateStartRecord, Bind.bind, Except.bind, pure, Except.pure]
  · norm_num [monitorRun, monitorRunGo, monitorStep, calculate_next_snapshot,
      aggregate, cfg300, sampleSnap, sampleSys, Bind.bind, Except.bind,
      pure, Except.pure]

/-- C5 witness: two different start times inside the same five-minute
window, with clock readings far past the replayed snapshot, replay to the
same records. -/
theorem c5_replay_deterministic_witness :
    monitorRun cfg300 100 (fun _ => 1000000) [sampleSnap 301] =
      monitorRun cfg300 160 (fun _ => 1000000) [sampleSnap 301] :=
  c5_replay_deterministic_up_to_clock cfg300 [sampleSnap 301] 100 160
    (fun _ => 1000000) (fun _ => 1000000)
    (by norm_num [calculate_next_snapshot, cfg300])
    (by intro i s hs
        simp only [List.mem_singleton] at hs
        subst hs
        norm_num [sampleSnap])

/-- Snapshots of a hypothetical recorded session. -/
def recordedPair : List Snapshot := [sampleSnap 5, sampleSnap 10]

/-- C3 (refuted, code bug): record/replay does not round-trip. With both a
load path and a save path the monitor opens the save file yet iteration
writes nothing to it, so after a whole live run has been yielded the save
file still holds no snapshot; with only a save path no branch of the
constructor runs and nothing is even opened; replay yields the parsed list
REVERSED rather than in recorded order; and the replay loader's file open
(binary mode combined with an encoding argument) raises ValueError before
anything is parsed. -/
theorem c3_record_replay_broken :
    (Monitor.init (some recordedPair) true).replay_out = some [] ∧
    ((Monitor.init (some recordedPair) true).iter recordedPair).2.replay_out =
      some [] ∧
    ([] : List Snapshot) ≠ recordedPair ∧
    Monitor.init none true = { replay_in := none, replay_out := none } ∧
    (Monitor.init (some recordedPair) false).replay_in =
      some [sampleSnap 10, sampleSnap 5] ∧
    Monitor.replay_sequence recordedPair = [sampleSnap 10, sampleSnap 5] ∧
    Monitor.load_replay recordedPair =
      .error "binary mode does not take an encoding argument" :=
  ⟨rfl, rfl, by simp [recordedPair], rfl, rfl, rfl, rfl⟩

example : fnmatch "/usr/bin/python3" "*.py" = false := by decide
example : fnmatch "/usr/bin/check.py -h" "*.py" = false := by decide
example : fnmatch "/usr/bin/check.py" "*.py" = true := by decide
example : fnmatch "python3" "python?" = true := by decide
example : fnmatch "python3" "python[0-9]" = true := by decide
example : fnmatch "pythonx" "python[0-9]" = false := by decide
example : pathName "/usr/sbin/sshd" = "sshd" := by decide
example : CommandFilters.call (CommandFilters.init ["sshd"]) (some ["/usr/sbin/sshd", "-D"]) = true := by decide

end UtilizationMonitor
